import Mathlib

/-!
Verification development for the eBPF network tracer entry points in
`pkg/network/ebpf/c/co-re/tracer-fentry.c`.

Machine integers are modelled as `Nat` with explicit `% 2^w` where the C code
performs a narrowing cast; return codes are `Int`.  Helper functions defined in
headers that are not part of the repository snapshot (tracer.h constants,
ipv6.h, sock.h, port.h, sockfd.h, tracer-maps.h, tracer-stats.h) are either
modelled from the specification (and say so in their doc comment) or abstracted
as environment functions.
-/

/-- Modelled from the spec: protocol/type bit of the `metadata_mask_t` bitmask
from `tracer.h` (not in the snapshot); TCP sets the low bit, UDP is zero. -/
def CONN_TYPE_UDP : Nat := 0

/-- Modelled from the spec: TCP protocol bit of the metadata bitmask. -/
def CONN_TYPE_TCP : Nat := 1

/-- Modelled from the spec: family marker for IPv4 in the metadata bitmask
(`tracer.h`); IPv4 is the default, so the marker is the zero mask and the
family is IPv4 exactly when the IPv6 bit is clear. -/
def CONN_V4 : Nat := 0

/-- Modelled from the spec: family marker bit for IPv6 in the metadata
bitmask (`tracer.h`). -/
def CONN_V6 : Nat := 2

/-- Linux socket type `SOCK_STREAM`. -/
def SOCK_STREAM : Nat := 1

/-- Linux socket type `SOCK_DGRAM`. -/
def SOCK_DGRAM : Nat := 2

/-- Linux address family `AF_INET`. -/
def AF_INET : Nat := 2

/-- Linux address family `AF_INET6`. -/
def AF_INET6 : Nat := 10

/-- `MSG_PEEK` flag, `#define MSG_PEEK 2` in the source. -/
def MSG_PEEK : Nat := 2

/-- Modelled from the spec: direction values of `conn_direction_t`. -/
def CONN_DIRECTION_UNKNOWN : Nat := 0

/-- Modelled from the spec: incoming direction marker. -/
def CONN_DIRECTION_INCOMING : Nat := 1

/-- Modelled from the spec: outgoing direction marker. -/
def CONN_DIRECTION_OUTGOING : Nat := 2

/-- Modelled from the spec: packet-count mode "none supplied". -/
def PACKET_COUNT_NONE : Nat := 0

/-- Modelled from the spec: packet-count mode "absolute replacement". -/
def PACKET_COUNT_ABSOLUTE : Nat := 1

/-- `conn_tuple_t` from `tracer.h`, as used by the source file: 64-bit
address halves, 16-bit ports, 32-bit netns/pid and the metadata bitmask. -/
@[ext]
structure ConnTuple where
  saddr_h : Nat
  saddr_l : Nat
  daddr_h : Nat
  daddr_l : Nat
  sport : Nat
  dport : Nat
  netns : Nat
  pid : Nat
  metadata : Nat
deriving DecidableEq, Repr

/-- The zero-initialised tuple (`conn_tuple_t t = {}`). -/
def zeroTuple : ConnTuple :=
  { saddr_h := 0, saddr_l := 0, daddr_h := 0, daddr_l := 0,
    sport := 0, dport := 0, netns := 0, pid := 0, metadata := 0 }

/-- The fields of `struct flowi4` read by the source: big-endian 32-bit
addresses and big-endian 16-bit ports. -/
structure Flowi4 where
  saddr : Nat
  daddr : Nat
  fl4_sport : Nat
  fl4_dport : Nat
deriving DecidableEq, Repr

/-- Modelled from the spec: a 128-bit IPv6 address as its two 64-bit halves,
exactly the representation `read_in6_addr` (ipv6.h, not in the snapshot)
produces when splitting a `struct in6_addr`. -/
structure In6Addr where
  h : Nat
  l : Nat
deriving DecidableEq, Repr

/-- The fields of `struct flowi6` read by the source. -/
structure Flowi6 where
  saddr : In6Addr
  daddr : In6Addr
  fl6_sport : Nat
  fl6_dport : Nat
deriving DecidableEq, Repr

/-- `bpf_ntohs`: byte-swap of a 16-bit value. -/
def bpf_ntohs (x : Nat) : Nat := (x % 256) * 256 + (x / 256 % 256)

/-- Modelled from the spec: the 32-bit pattern occupying the low half of the
low 64-bit word of an IPv4-mapped IPv6 address (`::ffff:a.b.c.d`) in the
memory layout the tracer reads: the low 32 bits hold the `ffff` mapping
marker, the high 32 bits hold the IPv4 value. -/
def ipv4MappedMark : Nat := 0xFFFF0000

/-- Modelled from the spec: `is_ipv4_mapped_ipv6` (ipv6.h, not in the
snapshot): both addresses have zero high 96 bits apart from the IPv4-mapped
prefix, i.e. zero high half and the mapped marker in the low 32 bits. -/
def is_ipv4_mapped_ipv6 (sh sl dh dl : Nat) : Bool :=
  sh == 0 && sl % 2 ^ 32 == ipv4MappedMark && dh == 0 && dl % 2 ^ 32 == ipv4MappedMark

/-- Fill a single 64-bit field only when it is still zero (the merge step
used for `saddr_l`, `daddr_l`, `sport`, `dport` in `flowi4` resolution). -/
def mergeField (cur new : Nat) : Nat := if cur = 0 then new else cur

/-- Fill an address (two halves) from the flow descriptor when either half is
still zero (the merge step of `flowi6` resolution). -/
def mergeAddr6 (cur_h cur_l new_h new_l : Nat) : Nat × Nat :=
  if cur_l = 0 || cur_h = 0 then (new_h, new_l) else (cur_h, cur_l)

/-- `read_conn_tuple_partial_from_flowi4` from the source, as a pure function
returning the mutated tuple and the success flag (`1`/`0` in C). -/
def read_conn_tuple_partial_from_flowi4 (t : ConnTuple) (fl4 : Flowi4)
    (pid_tgid ty : Nat) : ConnTuple × Bool :=
  let t := { t with pid := pid_tgid / 2 ^ 32, metadata := ty }
  let t := { t with saddr_l := mergeField t.saddr_l fl4.saddr }
  let t := { t with daddr_l := mergeField t.daddr_l fl4.daddr }
  if t.saddr_l = 0 || t.daddr_l = 0 then (t, false)
  else
    let t := { t with sport := mergeField t.sport (bpf_ntohs fl4.fl4_sport) }
    let t := { t with dport := mergeField t.dport (bpf_ntohs fl4.fl4_dport) }
    if t.sport = 0 || t.dport = 0 then (t, false)
    else (t, true)

/-- The address-merge block of `read_conn_tuple_partial_from_flowi6` (lines
60-67 of the source): conditionally overwrite each address pair from the
flow descriptor. -/
def flow6MergeAddrs (t : ConnTuple) (fl6 : Flowi6) : ConnTuple :=
  let sa := mergeAddr6 t.saddr_h t.saddr_l fl6.saddr.h fl6.saddr.l
  let da := mergeAddr6 t.daddr_h t.daddr_l fl6.daddr.h fl6.daddr.l
  { t with saddr_h := sa.1, saddr_l := sa.2, daddr_h := da.1, daddr_l := da.2 }

/-- The IPv4-mapped collapse block of `read_conn_tuple_partial_from_flowi6`
(lines 78-87 of the source): collapse both addresses to their IPv4 value
(`(u32)(l >> 32)`), zero the high halves and mark `CONN_V4`, or mark
`CONN_V6`. -/
def flow6Collapse (t : ConnTuple) : ConnTuple :=
  if is_ipv4_mapped_ipv6 t.saddr_h t.saddr_l t.daddr_h t.daddr_l then
    { t with metadata := t.metadata ||| CONN_V4,
             saddr_h := 0, daddr_h := 0,
             saddr_l := t.saddr_l / 2 ^ 32 % 2 ^ 32,
             daddr_l := t.daddr_l / 2 ^ 32 % 2 ^ 32 }
  else { t with metadata := t.metadata ||| CONN_V6 }

/-- The port-merge block of `read_conn_tuple_partial_from_flowi6` (lines
89-96 of the source). -/
def flow6MergePorts (t : ConnTuple) (fl6 : Flowi6) : ConnTuple :=
  { t with sport := mergeField t.sport (bpf_ntohs fl6.fl6_sport),
           dport := mergeField t.dport (bpf_ntohs fl6.fl6_dport) }

/-- `read_conn_tuple_partial_from_flowi6` from the source: set pid and
metadata, merge both addresses, reject an all-zero source or destination
address, collapse IPv4-mapped pairs or mark `CONN_V6`, then merge and check
the ports. -/
def read_conn_tuple_partial_from_flowi6 (t : ConnTuple) (fl6 : Flowi6)
    (pid_tgid ty : Nat) : ConnTuple × Bool :=
  let t := flow6MergeAddrs { t with pid := pid_tgid / 2 ^ 32, metadata := ty } fl6
  if t.saddr_h = 0 && t.saddr_l = 0 then (t, false)
  else if t.daddr_h = 0 && t.daddr_l = 0 then (t, false)
  else
    let t := flow6MergePorts (flow6Collapse t) fl6
    if t.sport = 0 || t.dport = 0 then (t, false)
    else (t, true)

/-- `pid_fd_t`: key of the descriptor identity index. -/
structure PidFd where
  pid : Nat
  fd : Nat
deriving DecidableEq, Repr

/-- The `family` field of `struct proto_ops` read by the source. -/
structure ProtoOps where
  family : Nat
deriving DecidableEq, Repr

/-- The fields of `struct socket` read by the source; `ops` may be null and
`sk` is the owned `struct sock` pointer, kept as an opaque id. -/
structure Socket where
  ops : Option ProtoOps
  type : Nat
  sk : Nat
deriving DecidableEq, Repr

/-- The fields of the sockaddr read by `sys_exit_bind`: the family and the
big-endian port of the IPv4 (`sin_port`) and IPv6 (`sin6_port`) views. -/
structure SockaddrBind where
  sa_family : Nat
  sin_port : Nat
  sin6_port : Nat
deriving DecidableEq, Repr

/-- `port_binding_t`. -/
structure PortBinding where
  netns : Nat
  port : Nat
deriving DecidableEq, Repr

/-- Association-list lookup, modelling `bpf_map_lookup_elem`. -/
def mapLookup {κ ν : Type} [DecidableEq κ] : List (κ × ν) → κ → Option ν
  | [], _ => none
  | (k', v) :: rest, k => if k' = k then some v else mapLookup rest k

/-- Association-list delete, modelling `bpf_map_delete_elem`. -/
def mapDelete {κ ν : Type} [DecidableEq κ] (m : List (κ × ν)) (k : κ) : List (κ × ν) :=
  m.filter (fun e => decide (e.1 ≠ k))

/-- Association-list upsert, modelling `bpf_map_update_elem` with `BPF_ANY`. -/
def mapInsert {κ ν : Type} [DecidableEq κ] (m : List (κ × ν)) (k : κ) (v : ν) : List (κ × ν) :=
  (k, v) :: mapDelete m k

/-- Externally visible side effects of one handler invocation: debug logging,
telemetry counter increments, and the calls into the external aggregation
backend (`handle_message`, `handle_tcp_stats`, `cleanup_conn`). -/
inductive Effect where
  | logDebug : Effect
  | telemetry : String → Effect
  | message : ConnTuple → Int → Int → Nat → Nat → Nat → Nat → Nat → Effect
  | tcpStats : ConnTuple → Nat → Nat → Effect
  | cleanupConn : ConnTuple → Nat → Effect
deriving DecidableEq, Repr

/-- Recognises a telemetry counter increment among the effects. -/
def Effect.isTelemetry : Effect → Bool
  | Effect.telemetry _ => true
  | _ => false

/-- Recognises a forwarded observation (`handle_message`) among the effects. -/
def Effect.isMessage : Effect → Bool
  | Effect.message _ _ _ _ _ _ _ _ => true
  | _ => false

/-- The BPF maps owned by the engine, as association lists / sets.  Keys:
thread identity (`pid_tgid`), socket pointers and `pid_fd_t` values. -/
structure TracerState where
  udp_send_skb_args : List (Nat × ConnTuple)
  tcp_ongoing_connect_pid : List (Nat × Nat)
  sock_by_pid_fd : List (PidFd × Nat)
  pid_fd_by_sock : List (Nat × PidFd)
  port_bindings : List PortBinding
  udp_port_bindings : List PortBinding
deriving DecidableEq, Repr

/-- All maps empty. -/
def emptyState : TracerState :=
  { udp_send_skb_args := [], tcp_ongoing_connect_pid := [],
    sock_by_pid_fd := [], pid_fd_by_sock := [],
    port_bindings := [], udp_port_bindings := [] }

/-- Modelled from the spec: the socket-reading helpers defined in headers
missing from the snapshot (`sock.h` `read_conn_tuple` and
`read_conn_tuple_partial`, `ip.h` `sockaddr_to_addr`, `port.h` `read_sport`,
`tcp-recv.h` `handle_tcp_recv`, `sock.h` `get_tcp_segment_counts`),
abstracted as an environment of pure functions.  The two resolvers return
the (possibly partially filled) tuple together with the success flag, since
the C versions mutate the caller's tuple even on failure. -/
structure Env where
  read_conn_tuple : Nat → Nat → Nat → ConnTuple × Bool
  read_conn_tuple_partial_sk : ConnTuple → Nat → Nat → Nat → ConnTuple × Bool
  sockaddr_to_addr : Nat → Nat × Nat × Nat × Nat
  read_sport : Nat → Nat
  get_tcp_segment_counts : Nat → Nat × Nat
  handle_tcp_recv : TracerState → Nat → Nat → Int → TracerState × List Effect

/-- `tcp_sendmsg_exit` (fexit/tcp_sendmsg): skip errors, resolve from the
socket, forward a send observation with absolute segment counts. -/
def tcp_sendmsg_exit (env : Env) (st : TracerState) (pid_tgid sk : Nat)
    (sent : Int) : TracerState × List Effect :=
  if sent < 0 then (st, [Effect.logDebug])
  else
    let r := env.read_conn_tuple sk pid_tgid CONN_TYPE_TCP
    if r.2 then
      let counts := env.get_tcp_segment_counts sk
      (st, [Effect.logDebug, Effect.tcpStats r.1 sk 0,
            Effect.message r.1 sent 0 CONN_DIRECTION_UNKNOWN counts.2 counts.1
              PACKET_COUNT_ABSOLUTE sk])
    else (st, [Effect.logDebug])

/-- `tcp_recvmsg_exit` (fexit/tcp_recvmsg): skip errors, then delegate to
`handle_tcp_recv` (tcp-recv.h, taken from the environment). -/
def tcp_recvmsg_exit (env : Env) (st : TracerState) (pid_tgid sk : Nat)
    (copied : Int) : TracerState × List Effect :=
  if copied < 0 then (st, [])
  else env.handle_tcp_recv st pid_tgid sk copied

/-- Modelled from the spec: `clear_sockfd_maps` (sockfd.h, not in the
snapshot) clears the descriptor-index entries of a socket: the reverse entry
names the `(pid, fd)` key whose forward entry is deleted along with it. -/
def clear_sockfd_maps (st : TracerState) (sk : Nat) : TracerState :=
  match mapLookup st.pid_fd_by_sock sk with
  | none => st
  | some pid_fd =>
    { st with sock_by_pid_fd := mapDelete st.sock_by_pid_fd pid_fd,
              pid_fd_by_sock := mapDelete st.pid_fd_by_sock sk }

/-- `tcp_close` (fentry/tcp_close): delete the staged connect entry and the
descriptor-index entries first, then resolve the tuple; `cleanup_conn` (the
external close finalisation) is triggered only when resolution succeeds. -/
def tcp_close (env : Env) (st : TracerState) (pid_tgid sk : Nat) :
    TracerState × List Effect :=
  let st := { st with
    tcp_ongoing_connect_pid := mapDelete st.tcp_ongoing_connect_pid sk }
  let st := clear_sockfd_maps st sk
  let r := env.read_conn_tuple sk pid_tgid CONN_TYPE_TCP
  if r.2 then (st, [Effect.logDebug, Effect.logDebug, Effect.cleanupConn r.1 sk])
  else (st, [Effect.logDebug])

/-- `handle_udp_send`: consume the tuple staged under this thread identity; a
missing entry is a silent no-op; a positive byte count forwards a send
observation with the staged tuple; the entry is deleted in both remaining
cases. -/
def handle_udp_send (st : TracerState) (pid_tgid sk : Nat) (sent : Int) :
    TracerState × List Effect :=
  match mapLookup st.udp_send_skb_args pid_tgid with
  | none => (st, [])
  | some t =>
    let effs :=
      if 0 < sent then
        [Effect.logDebug,
         Effect.message t sent 0 CONN_DIRECTION_UNKNOWN 1 0 PACKET_COUNT_NONE sk]
      else []
    ({ st with udp_send_skb_args := mapDelete st.udp_send_skb_args pid_tgid }, effs)

/-- `udp_sendmsg_exit` (fexit/udp_sendmsg). -/
def udp_sendmsg_exit (st : TracerState) (pid_tgid sk : Nat) (sent : Int) :
    TracerState × List Effect :=
  handle_udp_send st pid_tgid sk sent

/-- `udpv6_sendmsg_exit` (fexit/udpv6_sendmsg). -/
def udpv6_sendmsg_exit (st : TracerState) (pid_tgid sk : Nat) (sent : Int) :
    TracerState × List Effect :=
  handle_udp_send st pid_tgid sk sent

/-- `kprobe__udp_send_skb` (kprobe/udp_send_skb): resolve from the socket,
else from the IPv4 flow descriptor, and stage the tuple under the thread
identity; on double failure increment the `udp_send_missed` counter.  The
local tuple is stack-allocated without initialisation in the source; the
socket resolver returns the tuple it (partially) filled. -/
def kprobe__udp_send_skb (env : Env) (st : TracerState) (pid_tgid sk : Nat)
    (fl4 : Flowi4) : TracerState × List Effect :=
  let r := env.read_conn_tuple sk pid_tgid CONN_TYPE_UDP
  if r.2 then
    ({ st with udp_send_skb_args := mapInsert st.udp_send_skb_args pid_tgid r.1 }, [])
  else
    let r2 := read_conn_tuple_partial_from_flowi4 r.1 fl4 pid_tgid CONN_TYPE_UDP
    if r2.2 then
      ({ st with udp_send_skb_args := mapInsert st.udp_send_skb_args pid_tgid r2.1 }, [])
    else (st, [Effect.telemetry "udp_send_missed"])

/-- `handle_ret_udp_recvmsg`: reject negative returns and peeks, seed the
destination from the caller-supplied `msg_name` when present, complete the
tuple from the socket (`read_conn_tuple_partial`, environment) and forward a
receive observation. -/
def handle_ret_udp_recvmsg (env : Env) (st : TracerState) (pid_tgid sk : Nat)
    (msg_name : Option Nat) (copied : Int) (flags : Nat) :
    TracerState × List Effect :=
  if copied < 0 then (st, [Effect.logDebug])
  else if flags &&& MSG_PEEK ≠ 0 then (st, [])
  else
    let t1 :=
      match msg_name with
      | some sa =>
        let r := env.sockaddr_to_addr sa
        { zeroTuple with daddr_h := r.1, daddr_l := r.2.1,
                         dport := r.2.2.1, metadata := r.2.2.2 }
      | none => zeroTuple
    let r := env.read_conn_tuple_partial_sk t1 sk pid_tgid CONN_TYPE_UDP
    if r.2 then
      (st, [Effect.logDebug, Effect.logDebug,
            Effect.message r.1 0 copied CONN_DIRECTION_UNKNOWN 0 1
              PACKET_COUNT_NONE sk])
    else (st, [Effect.logDebug, Effect.logDebug])

/-- `udp_recvmsg_exit` (fexit/udp_recvmsg). -/
def udp_recvmsg_exit (env : Env) (st : TracerState) (pid_tgid sk : Nat)
    (msg_name : Option Nat) (copied : Int) (flags : Nat) :
    TracerState × List Effect :=
  handle_ret_udp_recvmsg env st pid_tgid sk msg_name copied flags

/-- `udpv6_recvmsg_exit` (fexit/udpv6_recvmsg). -/
def udpv6_recvmsg_exit (env : Env) (st : TracerState) (pid_tgid sk : Nat)
    (msg_name : Option Nat) (copied : Int) (flags : Nat) :
    TracerState × List Effect :=
  handle_ret_udp_recvmsg env st pid_tgid sk msg_name copied flags

/-- Modelled from the spec: `add_port_bind` (port.h, not in the snapshot) is
an idempotent insert into a binding set. -/
def add_port_bind (pb : PortBinding) (s : List PortBinding) : List PortBinding :=
  if pb ∈ s then s else pb :: s

/-- `sys_exit_bind`: on a successful bind of a datagram-type socket, take the
port from the supplied sockaddr by family, fall back to reading it off the
socket when zero, and record a UDP port binding with namespace 0; a port that
is still zero only logs. -/
def sys_exit_bind (env : Env) (st : TracerState) (sock : Socket)
    (addr : Option SockaddrBind) (rc : Int) : TracerState × List Effect :=
  if rc ≠ 0 then (st, [])
  else if sock.type &&& SOCK_DGRAM = 0 then (st, [])
  else
    match addr with
    | none => (st, [Effect.logDebug])
    | some a =>
      let sin_port :=
        if a.sa_family = AF_INET then a.sin_port
        else if a.sa_family = AF_INET6 then a.sin6_port
        else 0
      let sin_port := bpf_ntohs sin_port
      let sin_port := if sin_port = 0 then env.read_sport sock.sk else sin_port
      if sin_port = 0 then (st, [Effect.logDebug])
      else
        ({ st with udp_port_bindings :=
             add_port_bind { netns := 0, port := sin_port } st.udp_port_bindings },
         [Effect.logDebug])

/-- `inet_bind_exit` (fexit/inet_bind). -/
def inet_bind_exit (env : Env) (st : TracerState) (sock : Socket)
    (uaddr : Option SockaddrBind) (rc : Int) : TracerState × List Effect :=
  let r := sys_exit_bind env st sock uaddr rc
  (r.1, Effect.logDebug :: r.2)

/-- `inet6_bind_exit` (fexit/inet6_bind). -/
def inet6_bind_exit (env : Env) (st : TracerState) (sock : Socket)
    (uaddr : Option SockaddrBind) (rc : Int) : TracerState × List Effect :=
  let r := sys_exit_bind env st sock uaddr rc
  (r.1, Effect.logDebug :: r.2)

/-- `sockfd_lookup_light_exit` (fexit/sockfd_lookup_light): index the
descriptor/socket pair in both directions, only when the `(pid, fd)` key is
not yet present and the socket is a stream socket of the inet families. -/
def sockfd_lookup_light_exit (st : TracerState) (pid_tgid fd : Nat)
    (socket : Socket) : TracerState × List Effect :=
  let key : PidFd := { pid := pid_tgid / 2 ^ 32, fd := fd }
  match mapLookup st.sock_by_pid_fd key with
  | some _ => (st, [])
  | none =>
    match socket.ops with
    | none => (st, [])
    | some proto_ops =>
      if socket.type ≠ SOCK_STREAM ∨
         ¬(proto_ops.family = AF_INET ∨ proto_ops.family = AF_INET6) then (st, [])
      else
        let sock := socket.sk
        ({ st with pid_fd_by_sock := mapInsert st.pid_fd_by_sock sock key,
                   sock_by_pid_fd := mapInsert st.sock_by_pid_fd key sock }, [])

/-- A trivial environment in which every socket read fails, used to
instantiate universally quantified theorems at concrete inputs. -/
def env0 : Env where
  read_conn_tuple := fun _ _ _ => (zeroTuple, false)
  read_conn_tuple_partial_sk := fun t _ _ _ => (t, false)
  sockaddr_to_addr := fun _ => (0, 0, 0, 0)
  read_sport := fun _ => 0
  get_tcp_segment_counts := fun _ => (0, 0)
  handle_tcp_recv := fun st _ _ _ => (st, [])

/-- A concrete tuple with every field nonzero, used as counterexample input. -/
def tupleExample : ConnTuple :=
  { saddr_h := 0, saddr_l := 1, daddr_h := 0, daddr_l := 2,
    sport := 3, dport := 4, netns := 0, pid := 5, metadata := 9 }

/-- A concrete IPv4 flow descriptor. -/
def flow4Example : Flowi4 :=
  { saddr := 6, daddr := 7, fl4_sport := 0x3930, fl4_dport := 0x5000 }

/-- A concrete IPv6 flow descriptor carrying the IPv4-mapped addresses
`::ffff:10.0.0.1` and `::ffff:10.0.0.2` (spec scenario 6) and nonzero
big-endian ports. -/
def flow6Example : Flowi6 :=
  { saddr := { h := 0, l := 0x0100000A * 2 ^ 32 + 0xFFFF0000 },
    daddr := { h := 0, l := 0x0200000A * 2 ^ 32 + 0xFFFF0000 },
    fl6_sport := 0x3930, fl6_dport := 0x5000 }

/-- A concrete stream socket of family `AF_INET` with socket id 100. -/
def socketExample : Socket :=
  { ops := some { family := AF_INET }, type := SOCK_STREAM, sk := 100 }

/-- A concrete state with one registered descriptor (process 1, descriptor 3,
socket 100) and one staged connect entry for socket 100. -/
def stateExample : TracerState :=
  { emptyState with sock_by_pid_fd := [({ pid := 1, fd := 3 }, 100)],
                    pid_fd_by_sock := [(100, { pid := 1, fd := 3 })],
                    tcp_ongoing_connect_pid := [(100, 1 * 2 ^ 32)] }

/-! ## Helper lemmas about the merge primitives and resolver stages -/

theorem mergeField_keep {cur n : Nat} (h : cur ≠ 0) : mergeField cur n = cur := by
  simp [mergeField, h]

theorem mergeField_idem {c n : Nat} : mergeField (mergeField c n) n = mergeField c n := by
  unfold mergeField
  split_ifs <;> simp_all

theorem mergeAddr6_keep {ch cl nh nl : Nat} (h : ch ≠ 0) (h' : cl ≠ 0) :
    mergeAddr6 ch cl nh nl = (ch, cl) := by
  simp [mergeAddr6, h, h']

theorem mergeAddr6_idem {ch cl nh nl : Nat} :
    mergeAddr6 (mergeAddr6 ch cl nh nl).1 (mergeAddr6 ch cl nh nl).2 nh nl =
      mergeAddr6 ch cl nh nl := by
  unfold mergeAddr6
  split_ifs <;> simp_all

theorem mergeAddr6_fst_zero {ch cl nh nl : Nat} (h : (mergeAddr6 ch cl nh nl).1 = 0) :
    mergeAddr6 ch cl nh nl = (nh, nl) := by
  unfold mergeAddr6 at h ⊢
  split_ifs at h ⊢ <;> simp_all

theorem mergeAddr6_zero_h {cl nh nl : Nat} : mergeAddr6 0 cl nh nl = (nh, nl) := by
  simp [mergeAddr6]

theorem mapped_high_zero {sh sl dh dl : Nat} (h : is_ipv4_mapped_ipv6 sh sl dh dl = true) :
    sh = 0 ∧ dh = 0 := by
  simp only [is_ipv4_mapped_ipv6, Bool.and_eq_true, beq_iff_eq] at h
  exact ⟨h.1.1.1, h.1.2⟩

theorem mapped_false_of_sh {sh sl dh dl : Nat} (h : sh ≠ 0) :
    is_ipv4_mapped_ipv6 sh sl dh dl = false := by
  simp [is_ipv4_mapped_ipv6, h]

theorem mapped_false_of_dh {sh sl dh dl : Nat} (h : dh ≠ 0) :
    is_ipv4_mapped_ipv6 sh sl dh dl = false := by
  simp [is_ipv4_mapped_ipv6, h]

theorem flow6MergeAddrs_sport (t : ConnTuple) (fl6 : Flowi6) :
    (flow6MergeAddrs t fl6).sport = t.sport := rfl

theorem flow6MergeAddrs_dport (t : ConnTuple) (fl6 : Flowi6) :
    (flow6MergeAddrs t fl6).dport = t.dport := rfl

theorem flow6MergeAddrs_netns (t : ConnTuple) (fl6 : Flowi6) :
    (flow6MergeAddrs t fl6).netns = t.netns := rfl

theorem flow6MergeAddrs_pid (t : ConnTuple) (fl6 : Flowi6) :
    (flow6MergeAddrs t fl6).pid = t.pid := rfl

theorem flow6MergeAddrs_metadata (t : ConnTuple) (fl6 : Flowi6) :
    (flow6MergeAddrs t fl6).metadata = t.metadata := rfl

theorem flow6MergePorts_netns (t : ConnTuple) (fl6 : Flowi6) :
    (flow6MergePorts t fl6).netns = t.netns := rfl

theorem flow6MergePorts_pid (t : ConnTuple) (fl6 : Flowi6) :
    (flow6MergePorts t fl6).pid = t.pid := rfl

theorem flow6MergePorts_metadata (t : ConnTuple) (fl6 : Flowi6) :
    (flow6MergePorts t fl6).metadata = t.metadata := rfl

theorem flow6MergePorts_saddr_h (t : ConnTuple) (fl6 : Flowi6) :
    (flow6MergePorts t fl6).saddr_h = t.saddr_h := rfl

theorem flow6MergePorts_saddr_l (t : ConnTuple) (fl6 : Flowi6) :
    (flow6MergePorts t fl6).saddr_l = t.saddr_l := rfl

theorem flow6MergePorts_daddr_h (t : ConnTuple) (fl6 : Flowi6) :
    (flow6MergePorts t fl6).daddr_h = t.daddr_h := rfl

theorem flow6MergePorts_daddr_l (t : ConnTuple) (fl6 : Flowi6) :
    (flow6MergePorts t fl6).daddr_l = t.daddr_l := rfl

theorem flow6MergePorts_sport (t : ConnTuple) (fl6 : Flowi6) :
    (flow6MergePorts t fl6).sport = mergeField t.sport (bpf_ntohs fl6.fl6_sport) := rfl

theorem flow6MergePorts_dport (t : ConnTuple) (fl6 : Flowi6) :
    (flow6MergePorts t fl6).dport = mergeField t.dport (bpf_ntohs fl6.fl6_dport) := rfl

theorem flow6Collapse_sport (t : ConnTuple) : (flow6Collapse t).sport = t.sport := by
  unfold flow6Collapse
  split_ifs <;> rfl

theorem flow6Collapse_dport (t : ConnTuple) : (flow6Collapse t).dport = t.dport := by
  unfold flow6Collapse
  split_ifs <;> rfl

theorem flow6Collapse_netns (t : ConnTuple) : (flow6Collapse t).netns = t.netns := by
  unfold flow6Collapse
  split_ifs <;> rfl

theorem flow6Collapse_pid (t : ConnTuple) : (flow6Collapse t).pid = t.pid := by
  unfold flow6Collapse
  split_ifs <;> rfl

theorem flow6Collapse_not_mapped {t : ConnTuple}
    (h : is_ipv4_mapped_ipv6 t.saddr_h t.saddr_l t.daddr_h t.daddr_l = false) :
    flow6Collapse t = { t with metadata := t.metadata ||| CONN_V6 } := by
  unfold flow6Collapse
  rw [if_neg (by simp [h])]

theorem flow6MergeAddrs_idem (x : ConnTuple) (fl6 : Flowi6) :
    flow6MergeAddrs (flow6MergeAddrs x fl6) fl6 = flow6MergeAddrs x fl6 := by
  unfold flow6MergeAddrs
  dsimp only
  ext <;> simp [mergeAddr6_idem]

theorem r6_fail_s {t : ConnTuple} {fl6 : Flowi6} {p ty : Nat} {m : ConnTuple}
    (hm : flow6MergeAddrs { t with pid := p / 2 ^ 32, metadata := ty } fl6 = m)
    (h : m.saddr_h = 0) (h' : m.saddr_l = 0) :
    read_conn_tuple_partial_from_flowi6 t fl6 p ty = (m, false) := by
  unfold read_conn_tuple_partial_from_flowi6
  dsimp only
  rw [hm]
  simp [h, h']

theorem r6_fail_d {t : ConnTuple} {fl6 : Flowi6} {p ty : Nat} {m : ConnTuple}
    (hm : flow6MergeAddrs { t with pid := p / 2 ^ 32, metadata := ty } fl6 = m)
    (h1 : ¬(m.saddr_h = 0 ∧ m.saddr_l = 0)) (h : m.daddr_h = 0) (h' : m.daddr_l = 0) :
    read_conn_tuple_partial_from_flowi6 t fl6 p ty = (m, false) := by
  unfold read_conn_tuple_partial_from_flowi6
  dsimp only
  rw [hm]
  rw [if_neg (by simpa using h1)]
  simp [h, h']

theorem r6_go {t : ConnTuple} {fl6 : Flowi6} {p ty : Nat} {m : ConnTuple}
    (hm : flow6MergeAddrs { t with pid := p / 2 ^ 32, metadata := ty } fl6 = m)
    (h1 : ¬(m.saddr_h = 0 ∧ m.saddr_l = 0)) (h2 : ¬(m.daddr_h = 0 ∧ m.daddr_l = 0)) :
    read_conn_tuple_partial_from_flowi6 t fl6 p ty =
      (flow6MergePorts (flow6Collapse m) fl6,
       if (flow6MergePorts (flow6Collapse m) fl6).sport = 0 ∨
          (flow6MergePorts (flow6Collapse m) fl6).dport = 0 then false else true) := by
  unfold read_conn_tuple_partial_from_flowi6
  dsimp only
  rw [hm]
  rw [if_neg (by simpa using h1), if_neg (by simpa using h2)]
  split_ifs with h3 <;> simp_all

theorem r4_idem : ∀ t fl4 p ty,
    read_conn_tuple_partial_from_flowi4 (read_conn_tuple_partial_from_flowi4 t fl4 p ty).1 fl4 p ty =
      read_conn_tuple_partial_from_flowi4 t fl4 p ty := by
  intro t fl4 p ty
  unfold read_conn_tuple_partial_from_flowi4
  dsimp only
  split_ifs <;> simp_all [mergeField_idem]
set_option maxHeartbeats 1000000 in
theorem r6_idem : ∀ t fl6 p ty,
    read_conn_tuple_partial_from_flowi6 (read_conn_tuple_partial_from_flowi6 t fl6 p ty).1 fl6 p ty =
      read_conn_tuple_partial_from_flowi6 t fl6 p ty := by
  intro t fl6 p ty
  set m := flow6MergeAddrs { t with pid := p / 2 ^ 32, metadata := ty } fl6 with hm
  have hMpid : m.pid = p / 2 ^ 32 := by rw [hm]; rfl
  have hMmeta : m.metadata = ty := by rw [hm]; rfl
  have hMcollapse : { m with pid := p / 2 ^ 32, metadata := ty } = m := by
    ext <;> simp [hMpid, hMmeta]
  have hMstable : flow6MergeAddrs { m with pid := p / 2 ^ 32, metadata := ty } fl6 = m := by
    rw [hMcollapse, hm]
    exact flow6MergeAddrs_idem _ _
  by_cases h1 : m.saddr_h = 0 ∧ m.saddr_l = 0
  · rw [r6_fail_s hm.symm h1.1 h1.2]
    exact r6_fail_s hMstable h1.1 h1.2
  by_cases h2 : m.daddr_h = 0 ∧ m.daddr_l = 0
  · rw [r6_fail_d hm.symm h1 h2.1 h2.2]
    exact r6_fail_d hMstable h1 h2.1 h2.2
  -- success path of the address checks
  rw [r6_go hm.symm h1 h2]
  dsimp only
  set u := flow6MergePorts (flow6Collapse m) fl6 with hu
  have hUsp : u.sport = mergeField m.sport (bpf_ntohs fl6.fl6_sport) := by
    rw [hu]
    show mergeField (flow6Collapse m).sport _ = _
    rw [flow6Collapse_sport]
  have hUdp : u.dport = mergeField m.dport (bpf_ntohs fl6.fl6_dport) := by
    rw [hu]
    show mergeField (flow6Collapse m).dport _ = _
    rw [flow6Collapse_dport]
  have hUpid : u.pid = p / 2 ^ 32 := by
    rw [hu]
    show (flow6Collapse m).pid = _
    rw [flow6Collapse_pid, hMpid]
  have hUnet : u.netns = m.netns := by
    rw [hu]
    show (flow6Collapse m).netns = _
    exact flow6Collapse_netns m
  by_cases hmap : is_ipv4_mapped_ipv6 m.saddr_h m.saddr_l m.daddr_h m.daddr_l = true
  · obtain ⟨hsh, hdh⟩ := mapped_high_zero hmap
    have hfs : fl6.saddr.h = m.saddr_h ∧ fl6.saddr.l = m.saddr_l := by
      have hz : (mergeAddr6 t.saddr_h t.saddr_l fl6.saddr.h fl6.saddr.l).1 = 0 := by
        have : m.saddr_h = (mergeAddr6 t.saddr_h t.saddr_l fl6.saddr.h fl6.saddr.l).1 := by
          rw [hm]; rfl
        rw [← this]; exact hsh
      have he := mergeAddr6_fst_zero hz
      constructor
      · rw [show m.saddr_h = (mergeAddr6 t.saddr_h t.saddr_l fl6.saddr.h fl6.saddr.l).1 from by rw [hm]; rfl, he]
      · rw [show m.saddr_l = (mergeAddr6 t.saddr_h t.saddr_l fl6.saddr.h fl6.saddr.l).2 from by rw [hm]; rfl, he]
    have hfd : fl6.daddr.h = m.daddr_h ∧ fl6.daddr.l = m.daddr_l := by
      have hz : (mergeAddr6 t.daddr_h t.daddr_l fl6.daddr.h fl6.daddr.l).1 = 0 := by
        have : m.daddr_h = (mergeAddr6 t.daddr_h t.daddr_l fl6.daddr.h fl6.daddr.l).1 := by
          rw [hm]; rfl
        rw [← this]; exact hdh
      have he := mergeAddr6_fst_zero hz
      constructor
      · rw [show m.daddr_h = (mergeAddr6 t.daddr_h t.daddr_l fl6.daddr.h fl6.daddr.l).1 from by rw [hm]; rfl, he]
      · rw [show m.daddr_l = (mergeAddr6 t.daddr_h t.daddr_l fl6.daddr.h fl6.daddr.l).2 from by rw [hm]; rfl, he]
    have hcol : flow6Collapse m =
        { m with metadata := ty ||| CONN_V4, saddr_h := 0, daddr_h := 0,
                 saddr_l := m.saddr_l / 2 ^ 32 % 2 ^ 32,
                 daddr_l := m.daddr_l / 2 ^ 32 % 2 ^ 32 } := by
      unfold flow6Collapse
      rw [if_pos hmap, hMmeta]
    have hm2 : flow6MergeAddrs { u with pid := p / 2 ^ 32, metadata := ty } fl6 =
        { u with pid := p / 2 ^ 32, metadata := ty,
                 saddr_h := m.saddr_h, saddr_l := m.saddr_l,
                 daddr_h := m.daddr_h, daddr_l := m.daddr_l } := by
      have hus : u.saddr_h = 0 := by rw [hu]; show (flow6Collapse m).saddr_h = 0; rw [hcol]
      have hud : u.daddr_h = 0 := by rw [hu]; show (flow6Collapse m).daddr_h = 0; rw [hcol]
      unfold flow6MergeAddrs
      dsimp only
      ext <;> simp [hus, hud, mergeAddr6_zero_h, hfs.1, hfs.2, hfd.1, hfd.2]
    rw [r6_go hm2 (by simpa using h1) (by simpa using h2)]
    have hcol2 : flow6Collapse
        ({ u with pid := p / 2 ^ 32, metadata := ty,
                  saddr_h := m.saddr_h, saddr_l := m.saddr_l,
                  daddr_h := m.daddr_h, daddr_l := m.daddr_l } : ConnTuple) =
        { u with pid := p / 2 ^ 32, metadata := ty ||| CONN_V4,
                 saddr_h := 0, daddr_h := 0,
                 saddr_l := m.saddr_l / 2 ^ 32 % 2 ^ 32,
                 daddr_l := m.daddr_l / 2 ^ 32 % 2 ^ 32 } := by
      unfold flow6Collapse
      rw [if_pos hmap]
    have hfin : flow6MergePorts (flow6Collapse
        ({ u with pid := p / 2 ^ 32, metadata := ty,
                  saddr_h := m.saddr_h, saddr_l := m.saddr_l,
                  daddr_h := m.daddr_h, daddr_l := m.daddr_l } : ConnTuple)) fl6 = u := by
      rw [hcol2]
      conv_rhs => rw [hu]
      rw [hcol]
      unfold flow6MergePorts
      dsimp only
      ext <;> simp [hUsp, hUdp, hUpid, hUnet, hMpid, hMmeta, mergeField_idem]
    rw [hfin]
  · have hcol : flow6Collapse m = { m with metadata := ty ||| CONN_V6 } := by
      unfold flow6Collapse
      rw [if_neg hmap, hMmeta]
    have haddr : u.saddr_h = m.saddr_h ∧ u.saddr_l = m.saddr_l ∧
        u.daddr_h = m.daddr_h ∧ u.daddr_l = m.daddr_l := by
      refine ⟨?_, ?_, ?_, ?_⟩ <;> (rw [hu, hcol]; rfl)
    have hms : m.saddr_h = (mergeAddr6 t.saddr_h t.saddr_l fl6.saddr.h fl6.saddr.l).1 := by
      rw [hm]; rfl
    have hms' : m.saddr_l = (mergeAddr6 t.saddr_h t.saddr_l fl6.saddr.h fl6.saddr.l).2 := by
      rw [hm]; rfl
    have hmd : m.daddr_h = (mergeAddr6 t.daddr_h t.daddr_l fl6.daddr.h fl6.daddr.l).1 := by
      rw [hm]; rfl
    have hmd' : m.daddr_l = (mergeAddr6 t.daddr_h t.daddr_l fl6.daddr.h fl6.daddr.l).2 := by
      rw [hm]; rfl
    have hm2 : flow6MergeAddrs { u with pid := p / 2 ^ 32, metadata := ty } fl6 =
        { u with pid := p / 2 ^ 32, metadata := ty } := by
      unfold flow6MergeAddrs
      dsimp only
      ext <;> simp [haddr.1, haddr.2.1, haddr.2.2.1, haddr.2.2.2,
                    hms, hms', hmd, hmd', mergeAddr6_idem]
    have h1' : ¬(({ u with pid := p / 2 ^ 32, metadata := ty } : ConnTuple).saddr_h = 0 ∧
        ({ u with pid := p / 2 ^ 32, metadata := ty } : ConnTuple).saddr_l = 0) := by
      simpa [haddr.1, haddr.2.1] using h1
    have h2' : ¬(({ u with pid := p / 2 ^ 32, metadata := ty } : ConnTuple).daddr_h = 0 ∧
        ({ u with pid := p / 2 ^ 32, metadata := ty } : ConnTuple).daddr_l = 0) := by
      simpa [haddr.2.2.1, haddr.2.2.2] using h2
    rw [r6_go hm2 h1' h2']
    have hmap2 : is_ipv4_mapped_ipv6
        ({ u with pid := p / 2 ^ 32, metadata := ty } : ConnTuple).saddr_h
        ({ u with pid := p / 2 ^ 32, metadata := ty } : ConnTuple).saddr_l
        ({ u with pid := p / 2 ^ 32, metadata := ty } : ConnTuple).daddr_h
        ({ u with pid := p / 2 ^ 32, metadata := ty } : ConnTuple).daddr_l = false := by
      simp only [haddr.1, haddr.2.1, haddr.2.2.1, haddr.2.2.2]
      simpa using hmap
    have hcol2 : flow6Collapse ({ u with pid := p / 2 ^ 32, metadata := ty } : ConnTuple) =
        { u with pid := p / 2 ^ 32, metadata := ty ||| CONN_V6 } := by
      unfold flow6Collapse
      rw [if_neg (by simp [hmap2])]
    have hfin : flow6MergePorts (flow6Collapse
        ({ u with pid := p / 2 ^ 32, metadata := ty } : ConnTuple)) fl6 = u := by
      rw [hcol2]
      conv_rhs => rw [hu]
      rw [hcol]
      unfold flow6MergePorts
      dsimp only
      ext <;> simp [hUsp, hUdp, hUpid, hUnet, hMpid, hMmeta, mergeField_idem,
                    haddr.1, haddr.2.1, haddr.2.2.1, haddr.2.2.2]
    rw [hfin]

theorem mapped_low_nonzero {sh sl dh dl : Nat} (h : is_ipv4_mapped_ipv6 sh sl dh dl = true) :
    sl ≠ 0 ∧ dl ≠ 0 := by
  simp only [is_ipv4_mapped_ipv6, Bool.and_eq_true, beq_iff_eq] at h
  constructor
  · intro hz
    rw [hz] at h
    simp [ipv4MappedMark] at h
  · intro hz
    rw [hz] at h
    simp [ipv4MappedMark] at h

theorem flow6Collapse_mapped {t : ConnTuple}
    (h : is_ipv4_mapped_ipv6 t.saddr_h t.saddr_l t.daddr_h t.daddr_l = true) :
    flow6Collapse t =
      { t with metadata := t.metadata ||| CONN_V4,
               saddr_h := 0, daddr_h := 0,
               saddr_l := t.saddr_l / 2 ^ 32 % 2 ^ 32,
               daddr_l := t.daddr_l / 2 ^ 32 % 2 ^ 32 } := by
  unfold flow6Collapse
  rw [if_pos h]

theorem r4_preserve : ∀ t fl4 p ty,
    (read_conn_tuple_partial_from_flowi4 t fl4 p ty).1.saddr_h = t.saddr_h ∧
    (read_conn_tuple_partial_from_flowi4 t fl4 p ty).1.daddr_h = t.daddr_h ∧
    (read_conn_tuple_partial_from_flowi4 t fl4 p ty).1.netns = t.netns ∧
    (read_conn_tuple_partial_from_flowi4 t fl4 p ty).1.pid = p / 2 ^ 32 ∧
    (read_conn_tuple_partial_from_flowi4 t fl4 p ty).1.metadata = ty ∧
    (t.saddr_l ≠ 0 → (read_conn_tuple_partial_from_flowi4 t fl4 p ty).1.saddr_l = t.saddr_l) ∧
    (t.daddr_l ≠ 0 → (read_conn_tuple_partial_from_flowi4 t fl4 p ty).1.daddr_l = t.daddr_l) ∧
    (t.sport ≠ 0 → (read_conn_tuple_partial_from_flowi4 t fl4 p ty).1.sport = t.sport) ∧
    (t.dport ≠ 0 → (read_conn_tuple_partial_from_flowi4 t fl4 p ty).1.dport = t.dport) := by
  intro t fl4 p ty
  unfold read_conn_tuple_partial_from_flowi4 mergeField
  dsimp only
  split_ifs <;> simp_all

theorem r6_netns_pid : ∀ t fl6 p ty,
    (read_conn_tuple_partial_from_flowi6 t fl6 p ty).1.netns = t.netns ∧
    (read_conn_tuple_partial_from_flowi6 t fl6 p ty).1.pid = p / 2 ^ 32 := by
  intro t fl6 p ty
  unfold read_conn_tuple_partial_from_flowi6
  dsimp only
  split_ifs <;>
    simp [flow6MergePorts_netns, flow6Collapse_netns, flow6MergeAddrs_netns,
          flow6MergePorts_pid, flow6Collapse_pid, flow6MergeAddrs_pid]

theorem r6_ports_keep : ∀ t fl6 p ty,
    (t.sport ≠ 0 → (read_conn_tuple_partial_from_flowi6 t fl6 p ty).1.sport = t.sport) ∧
    (t.dport ≠ 0 → (read_conn_tuple_partial_from_flowi6 t fl6 p ty).1.dport = t.dport) := by
  intro t fl6 p ty
  unfold read_conn_tuple_partial_from_flowi6
  dsimp only
  constructor <;> intro h <;>
    (split_ifs <;>
      simp [flow6MergePorts_sport, flow6Collapse_sport, flow6MergeAddrs_sport,
            flow6MergePorts_dport, flow6Collapse_dport, flow6MergeAddrs_dport,
            mergeField_keep h])

theorem r6_saddr_keep : ∀ t fl6 p ty, t.saddr_h ≠ 0 → t.saddr_l ≠ 0 →
    (read_conn_tuple_partial_from_flowi6 t fl6 p ty).1.saddr_h = t.saddr_h ∧
    (read_conn_tuple_partial_from_flowi6 t fl6 p ty).1.saddr_l = t.saddr_l := by
  intro t fl6 p ty h h'
  unfold read_conn_tuple_partial_from_flowi6
  dsimp only
  split_ifs <;>
    simp_all [flow6MergeAddrs, mergeAddr6_keep h h', flow6MergePorts_saddr_h,
              flow6MergePorts_saddr_l, flow6Collapse, mapped_false_of_sh h]

theorem r6_daddr_keep : ∀ t fl6 p ty, t.daddr_h ≠ 0 → t.daddr_l ≠ 0 →
    (read_conn_tuple_partial_from_flowi6 t fl6 p ty).1.daddr_h = t.daddr_h ∧
    (read_conn_tuple_partial_from_flowi6 t fl6 p ty).1.daddr_l = t.daddr_l := by
  intro t fl6 p ty h h'
  unfold read_conn_tuple_partial_from_flowi6
  dsimp only
  split_ifs <;>
    simp_all [flow6MergeAddrs, mergeAddr6_keep h h', flow6MergePorts_daddr_h,
              flow6MergePorts_daddr_l, flow6Collapse, mapped_false_of_dh h]

theorem r4_success_iff : ∀ t fl4 p ty,
    (read_conn_tuple_partial_from_flowi4 t fl4 p ty).2 = true ↔
      (mergeField t.saddr_l fl4.saddr ≠ 0 ∧ mergeField t.daddr_l fl4.daddr ≠ 0 ∧
       mergeField t.sport (bpf_ntohs fl4.fl4_sport) ≠ 0 ∧
       mergeField t.dport (bpf_ntohs fl4.fl4_dport) ≠ 0) := by
  intro t fl4 p ty
  unfold read_conn_tuple_partial_from_flowi4
  dsimp only
  split_ifs <;> simp_all <;> tauto

theorem r6_success_iff : ∀ t fl6 p ty,
    (read_conn_tuple_partial_from_flowi6 t fl6 p ty).2 = true ↔
      (¬((flow6MergeAddrs { t with pid := p / 2 ^ 32, metadata := ty } fl6).saddr_h = 0 ∧
         (flow6MergeAddrs { t with pid := p / 2 ^ 32, metadata := ty } fl6).saddr_l = 0) ∧
       ¬((flow6MergeAddrs { t with pid := p / 2 ^ 32, metadata := ty } fl6).daddr_h = 0 ∧
         (flow6MergeAddrs { t with pid := p / 2 ^ 32, metadata := ty } fl6).daddr_l = 0) ∧
       mergeField t.sport (bpf_ntohs fl6.fl6_sport) ≠ 0 ∧
       mergeField t.dport (bpf_ntohs fl6.fl6_dport) ≠ 0) := by
  intro t fl6 p ty
  unfold read_conn_tuple_partial_from_flowi6
  dsimp only
  split_ifs <;>
    simp_all [flow6MergePorts_sport, flow6MergePorts_dport, flow6Collapse_sport,
              flow6Collapse_dport, flow6MergeAddrs_sport, flow6MergeAddrs_dport]
  all_goals tauto

/-- C1 (amended): partial-flow resolution never overwrites a nonzero
address-half or port field (for `flowi6`, an address is kept when both its
halves are nonzero), never touches `netns`, and repeated resolution with the
same arguments is idempotent; however `pid` and `metadata` are set
unconditionally from the call's parameters on every invocation. -/
theorem c1_thm :
    (∀ t fl4 p ty,
      (read_conn_tuple_partial_from_flowi4 t fl4 p ty).1.saddr_h = t.saddr_h ∧
      (read_conn_tuple_partial_from_flowi4 t fl4 p ty).1.daddr_h = t.daddr_h ∧
      (read_conn_tuple_partial_from_flowi4 t fl4 p ty).1.netns = t.netns ∧
      (read_conn_tuple_partial_from_flowi4 t fl4 p ty).1.pid = p / 2 ^ 32 ∧
      (read_conn_tuple_partial_from_flowi4 t fl4 p ty).1.metadata = ty ∧
      (t.saddr_l ≠ 0 → (read_conn_tuple_partial_from_flowi4 t fl4 p ty).1.saddr_l = t.saddr_l) ∧
      (t.daddr_l ≠ 0 → (read_conn_tuple_partial_from_flowi4 t fl4 p ty).1.daddr_l = t.daddr_l) ∧
      (t.sport ≠ 0 → (read_conn_tuple_partial_from_flowi4 t fl4 p ty).1.sport = t.sport) ∧
      (t.dport ≠ 0 → (read_conn_tuple_partial_from_flowi4 t fl4 p ty).1.dport = t.dport)) ∧
    (∀ t fl6 p ty,
      (read_conn_tuple_partial_from_flowi6 t fl6 p ty).1.netns = t.netns ∧
      (read_conn_tuple_partial_from_flowi6 t fl6 p ty).1.pid = p / 2 ^ 32 ∧
      (t.sport ≠ 0 → (read_conn_tuple_partial_from_flowi6 t fl6 p ty).1.sport = t.sport) ∧
      (t.dport ≠ 0 → (read_conn_tuple_partial_from_flowi6 t fl6 p ty).1.dport = t.dport) ∧
      (t.saddr_h ≠ 0 → t.saddr_l ≠ 0 →
        (read_conn_tuple_partial_from_flowi6 t fl6 p ty).1.saddr_h = t.saddr_h ∧
        (read_conn_tuple_partial_from_flowi6 t fl6 p ty).1.saddr_l = t.saddr_l) ∧
      (t.daddr_h ≠ 0 → t.daddr_l ≠ 0 →
        (read_conn_tuple_partial_from_flowi6 t fl6 p ty).1.daddr_h = t.daddr_h ∧
        (read_conn_tuple_partial_from_flowi6 t fl6 p ty).1.daddr_l = t.daddr_l)) ∧
    (∀ t fl4 p ty,
      read_conn_tuple_partial_from_flowi4
        (read_conn_tuple_partial_from_flowi4 t fl4 p ty).1 fl4 p ty =
        read_conn_tuple_partial_from_flowi4 t fl4 p ty) ∧
    (∀ t fl6 p ty,
      read_conn_tuple_partial_from_flowi6
        (read_conn_tuple_partial_from_flowi6 t fl6 p ty).1 fl6 p ty =
        read_conn_tuple_partial_from_flowi6 t fl6 p ty) :=
  ⟨r4_preserve,
   fun t fl6 p ty =>
     ⟨(r6_netns_pid t fl6 p ty).1, (r6_netns_pid t fl6 p ty).2,
      (r6_ports_keep t fl6 p ty).1, (r6_ports_keep t fl6 p ty).2,
      fun h h' => r6_saddr_keep t fl6 p ty h h',
      fun h h' => r6_daddr_keep t fl6 p ty h h'⟩,
   r4_idem, r6_idem⟩

/-- C1 counterexample: the claim as stated is false, because `pid` is a field
of the tuple, is nonzero in `tupleExample`, and is overwritten from the
`pid_tgid` argument by `read_conn_tuple_partial_from_flowi4`. -/
theorem c1_counterexample :
    tupleExample.pid ≠ 0 ∧
    (read_conn_tuple_partial_from_flowi4 tupleExample flow4Example
      (7 * 2 ^ 32) CONN_TYPE_UDP).1.pid ≠ tupleExample.pid := by
  decide

/-- C1 witness: the sport-preservation conjunct at a concrete input. -/
theorem c1_witness :
    tupleExample.sport ≠ 0 ∧
    (read_conn_tuple_partial_from_flowi4 tupleExample flow4Example 0
      CONN_TYPE_UDP).1.sport = tupleExample.sport :=
  ⟨by decide,
   (c1_thm.1 tupleExample flow4Example 0 CONN_TYPE_UDP).2.2.2.2.2.2.2.1 (by decide)⟩

/-- C3: both partial-flow resolvers succeed exactly when, after the
conditional fallback reads from the flow descriptor, the source address, the
destination address and both ports of the tuple are nonzero (for `flowi6` an
address counts as zero only when both halves are zero). -/
theorem c3_thm :
    (∀ t fl4 p ty,
      (read_conn_tuple_partial_from_flowi4 t fl4 p ty).2 = true ↔
        (mergeField t.saddr_l fl4.saddr ≠ 0 ∧ mergeField t.daddr_l fl4.daddr ≠ 0 ∧
         mergeField t.sport (bpf_ntohs fl4.fl4_sport) ≠ 0 ∧
         mergeField t.dport (bpf_ntohs fl4.fl4_dport) ≠ 0)) ∧
    (∀ t fl6 p ty,
      (read_conn_tuple_partial_from_flowi6 t fl6 p ty).2 = true ↔
        (¬((flow6MergeAddrs { t with pid := p / 2 ^ 32, metadata := ty } fl6).saddr_h = 0 ∧
           (flow6MergeAddrs { t with pid := p / 2 ^ 32, metadata := ty } fl6).saddr_l = 0) ∧
         ¬((flow6MergeAddrs { t with pid := p / 2 ^ 32, metadata := ty } fl6).daddr_h = 0 ∧
           (flow6MergeAddrs { t with pid := p / 2 ^ 32, metadata := ty } fl6).daddr_l = 0) ∧
         mergeField t.sport (bpf_ntohs fl6.fl6_sport) ≠ 0 ∧
         mergeField t.dport (bpf_ntohs fl6.fl6_dport) ≠ 0)) :=
  ⟨r4_success_iff, r6_success_iff⟩

/-- C3 witness: a fully populated IPv4 flow descriptor resolves successfully
on a fresh tuple, and an empty one fails. -/
theorem c3_witness :
    (read_conn_tuple_partial_from_flowi4 zeroTuple flow4Example 0 CONN_TYPE_UDP).2 = true ∧
    (read_conn_tuple_partial_from_flowi4 zeroTuple
      { saddr := 0, daddr := 0, fl4_sport := 0, fl4_dport := 0 } 0 CONN_TYPE_UDP).2 = false :=
  ⟨(c3_thm.1 zeroTuple flow4Example 0 CONN_TYPE_UDP).mpr (by decide),
   by
    have h := (c3_thm.1 zeroTuple
      { saddr := 0, daddr := 0, fl4_sport := 0, fl4_dport := 0 } 0 CONN_TYPE_UDP)
    revert h
    decide⟩

/-- C2: when both merged addresses are IPv4-mapped and resolution succeeds,
the resolved tuple has the IPv6 metadata bit clear (family IPv4), zero high
halves, and low halves equal to the IPv4 value held in the upper 32 bits of
each merged low half (the low 32 bits of the address in network order). -/
theorem c2_thm : ∀ t fl6 p ty,
    ty &&& CONN_V6 = 0 →
    is_ipv4_mapped_ipv6
      (flow6MergeAddrs { t with pid := p / 2 ^ 32, metadata := ty } fl6).saddr_h
      (flow6MergeAddrs { t with pid := p / 2 ^ 32, metadata := ty } fl6).saddr_l
      (flow6MergeAddrs { t with pid := p / 2 ^ 32, metadata := ty } fl6).daddr_h
      (flow6MergeAddrs { t with pid := p / 2 ^ 32, metadata := ty } fl6).daddr_l = true →
    (read_conn_tuple_partial_from_flowi6 t fl6 p ty).2 = true →
    (read_conn_tuple_partial_from_flowi6 t fl6 p ty).1.metadata &&& CONN_V6 = 0 ∧
    (read_conn_tuple_partial_from_flowi6 t fl6 p ty).1.saddr_h = 0 ∧
    (read_conn_tuple_partial_from_flowi6 t fl6 p ty).1.daddr_h = 0 ∧
    (read_conn_tuple_partial_from_flowi6 t fl6 p ty).1.saddr_l =
      (flow6MergeAddrs { t with pid := p / 2 ^ 32, metadata := ty } fl6).saddr_l / 2 ^ 32 % 2 ^ 32 ∧
    (read_conn_tuple_partial_from_flowi6 t fl6 p ty).1.daddr_l =
      (flow6MergeAddrs { t with pid := p / 2 ^ 32, metadata := ty } fl6).daddr_l / 2 ^ 32 % 2 ^ 32 := by
  intro t fl6 p ty hty hmap _hok
  set m := flow6MergeAddrs { t with pid := p / 2 ^ 32, metadata := ty } fl6 with hm
  obtain ⟨hsl, hdl⟩ := mapped_low_nonzero hmap
  have h1 : ¬(m.saddr_h = 0 ∧ m.saddr_l = 0) := fun hc => hsl hc.2
  have h2 : ¬(m.daddr_h = 0 ∧ m.daddr_l = 0) := fun hc => hdl hc.2
  rw [r6_go hm.symm h1 h2]
  have hcol := flow6Collapse_mapped hmap
  have hMmeta : m.metadata = ty := by rw [hm]; rfl
  refine ⟨?_, ?_, ?_, ?_, ?_⟩ <;>
    simp [flow6MergePorts_metadata, flow6MergePorts_saddr_h, flow6MergePorts_saddr_l,
          flow6MergePorts_daddr_h, flow6MergePorts_daddr_l, hcol, hMmeta, hty,
          CONN_V4, Nat.zero_or, Nat.or_zero]

/-- C2 witness: spec scenario 6, `::ffff:10.0.0.1` / `::ffff:10.0.0.2`:
collapsed to family IPv4 with the two IPv4 values in the low halves. -/
theorem c2_witness :
    (read_conn_tuple_partial_from_flowi6 zeroTuple flow6Example 0 CONN_TYPE_UDP).1.metadata &&&
        CONN_V6 = 0 ∧
    (read_conn_tuple_partial_from_flowi6 zeroTuple flow6Example 0 CONN_TYPE_UDP).1.saddr_h = 0 ∧
    (read_conn_tuple_partial_from_flowi6 zeroTuple flow6Example 0 CONN_TYPE_UDP).1.daddr_h = 0 ∧
    (read_conn_tuple_partial_from_flowi6 zeroTuple flow6Example 0 CONN_TYPE_UDP).1.saddr_l =
      0x0100000A ∧
    (read_conn_tuple_partial_from_flowi6 zeroTuple flow6Example 0 CONN_TYPE_UDP).1.daddr_l =
      0x0200000A :=
  c2_thm zeroTuple flow6Example 0 CONN_TYPE_UDP (by decide) (by decide) (by decide)

theorem mapLookup_insert {κ ν : Type} [DecidableEq κ] (m : List (κ × ν)) (k : κ) (v : ν) :
    mapLookup (mapInsert m k v) k = some v := by
  simp [mapInsert, mapLookup]

/-- C4 (amended): a UDP send-completed event with no staged entry for the
thread identity is a complete no-op (no observation, no state change, no
counter); with a staged entry and a positive byte count it forwards a send
observation with the staged tuple and removes the entry; the
`udp_send_missed` counter is instead incremented by the staging entry point
when both tuple resolutions fail. -/
theorem c4_thm : ∀ st p sk sent,
    (mapLookup st.udp_send_skb_args p = none →
      handle_udp_send st p sk sent = (st, [])) ∧
    (∀ t, mapLookup st.udp_send_skb_args p = some t → 0 < sent →
      handle_udp_send st p sk sent =
        ({ st with udp_send_skb_args := mapDelete st.udp_send_skb_args p },
         [Effect.logDebug,
          Effect.message t sent 0 CONN_DIRECTION_UNKNOWN 1 0 PACKET_COUNT_NONE sk])) ∧
    (∀ env fl4, (env.read_conn_tuple sk p CONN_TYPE_UDP).2 = false →
      (read_conn_tuple_partial_from_flowi4 (env.read_conn_tuple sk p CONN_TYPE_UDP).1
        fl4 p CONN_TYPE_UDP).2 = false →
      kprobe__udp_send_skb env st p sk fl4 =
        (st, [Effect.telemetry "udp_send_missed"])) := by
  intro st p sk sent
  refine ⟨?_, ?_, ?_⟩
  · intro h
    simp [handle_udp_send, h]
  · intro t ht hs
    simp [handle_udp_send, ht, hs]
  · intro env fl4 h1 h2
    simp [kprobe__udp_send_skb, h1, h2]

/-- C4 counterexample: on a staging miss the handler is a strict no-op; in
particular it does not increment any telemetry counter. -/
theorem c4_counterexample :
    handle_udp_send emptyState 42 7 5 = (emptyState, []) ∧
    List.filter Effect.isTelemetry (handle_udp_send emptyState 42 7 5).2 = [] := by
  decide

/-- C4 witness: the staging-miss conjunct at a concrete input. -/
theorem c4_witness :
    mapLookup emptyState.udp_send_skb_args 42 = none ∧
    handle_udp_send emptyState 42 7 (-1) = (emptyState, []) :=
  ⟨by decide, (c4_thm emptyState 42 7 (-1)).1 (by decide)⟩

/-- C5 (amended): a successful registration writes both directions together
in one invocation, so immediately afterwards both mappings of that
(process, descriptor, socket) triple exist and point at each other. -/
theorem c5_thm : ∀ st p fd socket o,
    mapLookup st.sock_by_pid_fd { pid := p / 2 ^ 32, fd := fd } = none →
    socket.ops = some o →
    socket.type = SOCK_STREAM →
    (o.family = AF_INET ∨ o.family = AF_INET6) →
    mapLookup (sockfd_lookup_light_exit st p fd socket).1.sock_by_pid_fd
        { pid := p / 2 ^ 32, fd := fd } = some socket.sk ∧
    mapLookup (sockfd_lookup_light_exit st p fd socket).1.pid_fd_by_sock socket.sk =
        some { pid := p / 2 ^ 32, fd := fd } := by
  intro st p fd socket o h1 h2 h3 h4
  have hcond : ¬(socket.type ≠ SOCK_STREAM ∨
      ¬(o.family = AF_INET ∨ o.family = AF_INET6)) := by
    push_neg
    exact ⟨h3, h4⟩
  unfold sockfd_lookup_light_exit
  dsimp only
  rw [h1, h2]
  dsimp only
  rw [if_neg hcond]
  exact ⟨mapLookup_insert _ _ _, mapLookup_insert _ _ _⟩

/-- C5 counterexample: registering a second descriptor for the same socket
overwrites the socket-to-descriptor direction, so the first triple keeps its
descriptor-to-socket entry while its reverse mapping no longer names it:
"at all times either both exist or neither" is false. -/
theorem c5_counterexample :
    mapLookup ((sockfd_lookup_light_exit
        (sockfd_lookup_light_exit emptyState (1 * 2 ^ 32) 3 socketExample).1
        (1 * 2 ^ 32) 4 socketExample).1).sock_by_pid_fd { pid := 1, fd := 3 } = some 100 ∧
    mapLookup ((sockfd_lookup_light_exit
        (sockfd_lookup_light_exit emptyState (1 * 2 ^ 32) 3 socketExample).1
        (1 * 2 ^ 32) 4 socketExample).1).pid_fd_by_sock 100 = some { pid := 1, fd := 4 } ∧
    ¬ mapLookup ((sockfd_lookup_light_exit
        (sockfd_lookup_light_exit emptyState (1 * 2 ^ 32) 3 socketExample).1
        (1 * 2 ^ 32) 4 socketExample).1).pid_fd_by_sock 100 = some { pid := 1, fd := 3 } := by
  decide

/-- C5 witness: the pairing conjuncts at a concrete registration. -/
theorem c5_witness :
    mapLookup ((sockfd_lookup_light_exit emptyState (1 * 2 ^ 32) 3 socketExample).1).sock_by_pid_fd
        { pid := 1, fd := 3 } = some 100 ∧
    mapLookup ((sockfd_lookup_light_exit emptyState (1 * 2 ^ 32) 3 socketExample).1).pid_fd_by_sock
        100 = some { pid := 1, fd := 3 } :=
  c5_thm emptyState (1 * 2 ^ 32) 3 socketExample { family := AF_INET }
    (by decide) (by decide) (by decide) (by decide)

/-- C9: a hit on the (process, descriptor) key performs no writes; on a miss
the bidirectional entries are written exactly when the socket has proto_ops,
is a stream socket and its family is `AF_INET` or `AF_INET6`; in every other
case the handler leaves the state untouched. -/
theorem c9_thm : ∀ st p fd socket,
    (∀ v, mapLookup st.sock_by_pid_fd { pid := p / 2 ^ 32, fd := fd } = some v →
      sockfd_lookup_light_exit st p fd socket = (st, [])) ∧
    (mapLookup st.sock_by_pid_fd { pid := p / 2 ^ 32, fd := fd } = none →
      (socket.ops = none → sockfd_lookup_light_exit st p fd socket = (st, [])) ∧
      (∀ o, socket.ops = some o →
        ((socket.type ≠ SOCK_STREAM ∨ ¬(o.family = AF_INET ∨ o.family = AF_INET6)) →
          sockfd_lookup_light_exit st p fd socket = (st, [])) ∧
        (socket.type = SOCK_STREAM → (o.family = AF_INET ∨ o.family = AF_INET6) →
          sockfd_lookup_light_exit st p fd socket =
            ({ st with
                pid_fd_by_sock :=
                  mapInsert st.pid_fd_by_sock socket.sk { pid := p / 2 ^ 32, fd := fd },
                sock_by_pid_fd :=
                  mapInsert st.sock_by_pid_fd { pid := p / 2 ^ 32, fd := fd } socket.sk },
             [])))) := by
  intro st p fd socket
  constructor
  · intro v hv
    unfold sockfd_lookup_light_exit
    dsimp only
    rw [hv]
  · intro h1
    constructor
    · intro h2
      unfold sockfd_lookup_light_exit
      dsimp only
      rw [h1, h2]
    · intro o h2
      constructor
      · intro hbad
        unfold sockfd_lookup_light_exit
        dsimp only
        rw [h1, h2]
        dsimp only
        rw [if_pos hbad]
      · intro h3 h4
        have hcond : ¬(socket.type ≠ SOCK_STREAM ∨
            ¬(o.family = AF_INET ∨ o.family = AF_INET6)) := by
          push_neg
          exact ⟨h3, h4⟩
        unfold sockfd_lookup_light_exit
        dsimp only
        rw [h1, h2]
        dsimp only
        rw [if_neg hcond]

/-- C9 witness: a repeated lookup for an already indexed descriptor is a
no-op. -/
theorem c9_witness :
    mapLookup stateExample.sock_by_pid_fd { pid := 1, fd := 3 } = some 100 ∧
    sockfd_lookup_light_exit stateExample (1 * 2 ^ 32) 3 socketExample =
      (stateExample, []) :=
  ⟨by decide, (c9_thm stateExample (1 * 2 ^ 32) 3 socketExample).1 100 (by decide)⟩

/-- C6 (amended): on a successful bind of a datagram-type socket with a
sockaddr present, the port is taken from the sockaddr by family (byte-swapped),
falling back to reading it from the socket when it is zero; if both are zero
no binding is recorded and only a debug message is logged (no telemetry
counter exists on this path); otherwise `(0, port)` is added to the UDP
binding set. -/
theorem c6_thm : ∀ (env : Env) (st : TracerState) (sock : Socket)
    (a : SockaddrBind) (rc : Int) (port : Nat),
    rc = 0 → sock.type &&& SOCK_DGRAM ≠ 0 →
    port = (if bpf_ntohs (if a.sa_family = AF_INET then a.sin_port
                          else if a.sa_family = AF_INET6 then a.sin6_port else 0) = 0
            then env.read_sport sock.sk
            else bpf_ntohs (if a.sa_family = AF_INET then a.sin_port
                            else if a.sa_family = AF_INET6 then a.sin6_port else 0)) →
    ((port = 0 → sys_exit_bind env st sock (some a) rc = (st, [Effect.logDebug])) ∧
     (port ≠ 0 →
       sys_exit_bind env st sock (some a) rc =
         ({ st with udp_port_bindings :=
              add_port_bind ⟨0, port⟩ st.udp_port_bindings },
          [Effect.logDebug]))) := by
  intro env st sock a rc port hrc hty hport
  subst hrc
  have h0 : ¬((0 : Int) ≠ 0) := by decide
  unfold sys_exit_bind
  rw [if_neg h0, if_neg hty]
  dsimp only
  refine ⟨?_, ?_⟩ <;> intro h
  · rw [← hport, if_pos h]
  · rw [← hport, if_neg h]

/-- C6 counterexample: sockaddr port zero and socket port zero: no binding is
recorded, but no diagnostic counter is incremented either (only a debug
message is logged), contradicting the claim. -/
theorem c6_counterexample :
    sys_exit_bind env0 emptyState { ops := none, type := SOCK_DGRAM, sk := 5 }
        (some { sa_family := AF_INET, sin_port := 0, sin6_port := 0 }) 0 =
      (emptyState, [Effect.logDebug]) ∧
    List.filter Effect.isTelemetry
      (sys_exit_bind env0 emptyState { ops := none, type := SOCK_DGRAM, sk := 5 }
        (some { sa_family := AF_INET, sin_port := 0, sin6_port := 0 }) 0).2 = [] ∧
    (sys_exit_bind env0 emptyState { ops := none, type := SOCK_DGRAM, sk := 5 }
        (some { sa_family := AF_INET, sin_port := 0, sin6_port := 0 }) 0).1.udp_port_bindings
      = [] := by
  decide

/-- C6 witness: a nonzero sockaddr port (big-endian 0x3930 = 12345) is bound
with namespace 0. -/
theorem c6_witness :
    sys_exit_bind env0 emptyState { ops := none, type := SOCK_DGRAM, sk := 5 }
        (some { sa_family := AF_INET, sin_port := 0x3930, sin6_port := 0 }) 0 =
      ({ emptyState with udp_port_bindings := [{ netns := 0, port := 12345 }] },
       [Effect.logDebug]) := by
  have h := (c6_thm env0 emptyState { ops := none, type := SOCK_DGRAM, sk := 5 }
    { sa_family := AF_INET, sin_port := 0x3930, sin6_port := 0 } 0 12345 rfl
    (by decide) (by decide)).2 (by decide)
  rw [h]
  decide

/-- C7: a UDP receive-completed event whose flags include `MSG_PEEK` mutates
no state and forwards nothing — at most a debug message is emitted —
regardless of the byte count, the caller-supplied address, the environment
(socket contents), or whether the tuple would resolve. -/
theorem c7_thm : ∀ (env : Env) (st : TracerState) (p sk : Nat)
    (msg_name : Option Nat) (copied : Int) (flags : Nat),
    flags &&& MSG_PEEK ≠ 0 →
    (handle_ret_udp_recvmsg env st p sk msg_name copied flags).1 = st ∧
    List.filter Effect.isMessage
      (handle_ret_udp_recvmsg env st p sk msg_name copied flags).2 = [] ∧
    List.filter Effect.isTelemetry
      (handle_ret_udp_recvmsg env st p sk msg_name copied flags).2 = [] := by
  intro env st p sk msg_name copied flags h
  unfold handle_ret_udp_recvmsg
  split_ifs with h1 <;> simp [Effect.isMessage, Effect.isTelemetry, h]

/-- C7 witness: a peek with a positive byte count on a resolvable socket. -/
theorem c7_witness :
    MSG_PEEK &&& MSG_PEEK ≠ 0 ∧
    (handle_ret_udp_recvmsg env0 emptyState 0 0 none 5 MSG_PEEK).1 = emptyState :=
  ⟨by decide, (c7_thm env0 emptyState 0 0 none 5 MSG_PEEK (by decide)).1⟩

/-- C8: TCP send-exit, TCP receive-exit and UDP receive-exit events with a
negative return value are skipped: for every environment the state is
unchanged and nothing beyond a debug message is emitted, and the result does
not depend on the environment, so no tuple resolution is attempted. -/
theorem c8_thm :
    (∀ (env : Env) (st : TracerState) (p sk : Nat) (sent : Int), sent < 0 →
      tcp_sendmsg_exit env st p sk sent = (st, [Effect.logDebug])) ∧
    (∀ (env : Env) (st : TracerState) (p sk : Nat) (copied : Int), copied < 0 →
      tcp_recvmsg_exit env st p sk copied = (st, [])) ∧
    (∀ (env : Env) (st : TracerState) (p sk : Nat) (msg_name : Option Nat)
        (copied : Int) (flags : Nat), copied < 0 →
      handle_ret_udp_recvmsg env st p sk msg_name copied flags =
        (st, [Effect.logDebug])) := by
  refine ⟨?_, ?_, ?_⟩
  · intro env st p sk sent h
    simp [tcp_sendmsg_exit, h]
  · intro env st p sk copied h
    simp [tcp_recvmsg_exit, h]
  · intro env st p sk msg_name copied flags h
    simp [handle_ret_udp_recvmsg, h]

/-- C8 witness: the TCP send-exit conjunct at return value -1. -/
theorem c8_witness :
    ((-1 : Int) < 0) ∧
    tcp_sendmsg_exit env0 emptyState 0 0 (-1) = (emptyState, [Effect.logDebug]) :=
  ⟨by decide, c8_thm.1 env0 emptyState 0 0 (-1) (by decide)⟩

/-- C10: `tcp_close` deletes the staged connect entry and the socket's
descriptor-index entries unconditionally, before tuple resolution; when
resolution fails the deletions persist and only a debug message is emitted
(no external close finalisation). -/
theorem c10_thm : ∀ (env : Env) (st : TracerState) (p sk : Nat),
    (tcp_close env st p sk).1 =
      clear_sockfd_maps
        { st with tcp_ongoing_connect_pid := mapDelete st.tcp_ongoing_connect_pid sk } sk ∧
    ((env.read_conn_tuple sk p CONN_TYPE_TCP).2 = false →
      (tcp_close env st p sk).2 = [Effect.logDebug]) := by
  intro env st p sk
  unfold tcp_close
  dsimp only
  constructor
  · split_ifs <;> rfl
  · intro h
    rw [h]
    rfl

/-- C10 witness: with a failing resolver, the staged connect entry and both
descriptor-index entries for socket 100 are gone, and no close finalisation
effect is emitted. -/
theorem c10_witness :
    (tcp_close env0 stateExample 0 100).1 =
      clear_sockfd_maps
        { stateExample with
            tcp_ongoing_connect_pid := mapDelete stateExample.tcp_ongoing_connect_pid 100 } 100 ∧
    ((env0.read_conn_tuple 100 0 CONN_TYPE_TCP).2 = false →
      (tcp_close env0 stateExample 0 100).2 = [Effect.logDebug]) :=
  c10_thm env0 stateExample 0 100
